import Mathlib

/-
Verification of the eligibility & academic-metrics engine of the placement
portal (src/app.py).

Modelling conventions, used throughout:
* Python floats (SGPA, credits, CGPA thresholds) are modelled as exact
  rationals `ℚ`; `round(x, 2)` is modelled as round-half-to-even on the
  exact rational, the rounding mode Python's `round` uses.
* The SQLAlchemy tables are modelled as Lean lists of records; a query
  `filter_by(...)` is a `List.filter`, `.first()` is `List.find?`, and an
  in-place mutation of a row is a map that replaces the matching row.
* `eligibility_status`, `selection_policy` and application `status` are
  strings in the database, but every writer in app.py validates them
  against the closed sets ELIGIBILITY_STATUSES / SELECTION_POLICIES /
  the allowed application statuses, so they are modelled as enumerations.
* The human-readable deny messages built with f-strings are modelled as a
  `Reason` datatype carrying the interpolated values; distinct Python
  messages map to distinct constructors, so "which reason wins" is
  faithfully represented.
* `block_reason` is nullable in the database and every writer stores
  `None` instead of an empty string, so it is an `Option String` and
  Python's `student.block_reason or default` is `Option.getD`.
* Timestamps (`applied_at`) are modelled as natural numbers; only their
  ordering is ever used (`order_by(applied_at.desc())`).
-/

/-! ### String helpers (Python str.strip / upper / lower / replace / split) -/

def isSpaceChar (c : Char) : Bool :=
  c == ' ' || c == '\t' || c == '\n' || c == '\r'

def trimChars (l : List Char) : List Char :=
  ((l.dropWhile isSpaceChar).reverse.dropWhile isSpaceChar).reverse

def sTrim (s : String) : String := String.mk (trimChars s.toList)

def sUpper (s : String) : String := String.mk (s.toList.map Char.toUpper)

def sLower (s : String) : String := String.mk (s.toList.map Char.toLower)

/-- Python `s.replace(" ", "")`. -/
def stripSpaces (s : String) : String :=
  String.mk (s.toList.filter (fun c => c != ' '))

def isPrefixL : List Char → List Char → Bool
  | [], _ => true
  | _ :: _, [] => false
  | a :: as, b :: bs => a == b && isPrefixL as bs

def containsSub (needle : List Char) : List Char → Bool
  | [] => isPrefixL needle []
  | c :: rest => isPrefixL needle (c :: rest) || containsSub needle rest

/-- Python `needle in hay` on strings. -/
def strContainsSub (hay needle : String) : Bool :=
  containsSub needle.toList hay.toList

def splitCommaChars : List Char → List (List Char)
  | [] => [[]]
  | c :: rest =>
    let r := splitCommaChars rest
    if c == ',' then [] :: r
    else
      match r with
      | h :: t => (c :: h) :: t
      | [] => [[c]]

/-- Python `s.split(",")`. -/
def splitComma (s : String) : List String :=
  (splitCommaChars s.toList).map String.mk

def isDigitStr (s : String) : Bool :=
  !s.toList.isEmpty && s.toList.all (fun c => c.isDigit)

def parseNatDigits (l : List Char) : ℕ :=
  l.foldl (fun acc c => acc * 10 + (c.toNat - 48)) 0

/-! ### Enumerations (app.py lines 71-78, 816) -/

inductive EligStatus where
  | ELIGIBLE
  | EXTERNAL_INTERN
  | CAMPUS_INTERN
  | EXTERNAL_PLACED
  | BLOCKED_BY_POLICY
deriving DecidableEq

inductive SelectionPolicy where
  | BLOCKING
  | NON_BLOCKING
deriving DecidableEq

inductive AppStatus where
  | APPLIED
  | SHORTLISTED
  | INTERVIEW
  | SELECTED
  | REJECTED
deriving DecidableEq

/-! ### Data model (app.py lines 81-166) -/

structure Student where
  roll_no : String
  name : String
  branch : String
  is_lateral_entry : Bool
  current_semester : ℤ
  cgpa : ℚ
  total_backlogs : ℤ
  eligibility_status : EligStatus
  block_reason : Option String
  blocked_by_company_id : Option ℕ
deriving DecidableEq

structure SemesterPerformance where
  roll_no : String
  semester_no : ℤ
  sgpa : ℚ
  semester_credits : ℚ
  backlog_count : ℤ
  source_file : String
deriving DecidableEq

structure BacklogUpdateRec where
  roll_no : String
  semester_no : ℤ
  old_backlog : ℤ
  new_backlog : ℤ
  note : String
deriving DecidableEq

structure Company where
  id : ℕ
  name : String
  eligible_branches : String
  min_cgpa : ℚ
  max_backlogs : ℤ
  selection_policy : SelectionPolicy
deriving DecidableEq

structure Application where
  company_id : ℕ
  status : AppStatus
  applied_at : ℕ
deriving DecidableEq

/-! ### MetricsCalculator (app.py lines 331-354) -/

/-- Floor of a rational, written explicitly (`den` is positive). -/
def ratFloor (q : ℚ) : ℤ := q.num.fdiv q.den

/-- Round half to even, the tie-breaking mode of Python `round`. -/
def roundHalfEven (q : ℚ) : ℤ :=
  let n := ratFloor q
  let frac := q - n
  if frac < 1/2 then n
  else if 1/2 < frac then n + 1
  else if n % 2 = 0 then n else n + 1

/-- Python `round(q, 2)` on the exact rational. -/
def round2 (q : ℚ) : ℚ := (roundHalfEven (q * 100) : ℚ) / 100

/-- The query `SemesterPerformance.query.filter_by(student_id=student.id).all()`. -/
def studentRecords (roll : String) (db : List SemesterPerformance) :
    List SemesterPerformance :=
  db.filter (fun r => r.roll_no == roll)

def minSemester (lateral : Bool) : ℤ := if lateral then 3 else 1

/-- The filter on line 337: `r.semester_no >= min_sem and r.semester_credits > 0`. -/
def usablePred (lateral : Bool) (r : SemesterPerformance) : Bool :=
  decide (minSemester lateral ≤ r.semester_no) && decide (0 < r.semester_credits)

def usableRecords (lateral : Bool) (records : List SemesterPerformance) :
    List SemesterPerformance :=
  records.filter (usablePred lateral)

/-- Function `calculate_cgpa` (app.py lines 331-344). -/
def calculate_cgpa (student : Student) (db : List SemesterPerformance) : ℚ :=
  let records := studentRecords student.roll_no db
  if records = [] then 0
  else
    let usable := usableRecords student.is_lateral_entry records
    if usable = [] then 0
    else
      let weighted_sum := (usable.map (fun r => r.sgpa * r.semester_credits)).sum
      let total_credits := (usable.map (fun r => r.semester_credits)).sum
      if total_credits ≤ 0 then 0
      else round2 (weighted_sum / total_credits)

/-- Function `calculate_backlog` (app.py lines 347-349). -/
def calculate_backlog (student : Student) (db : List SemesterPerformance) : ℤ :=
  ((studentRecords student.roll_no db).map (fun r => max 0 r.backlog_count)).sum

/-! ### GradesheetRowParser (`parse_pdf_rows`, app.py lines 357-409) -/

/-- The roll regex of line 359: a letter or digit, then at least 4 more
characters each a letter, digit, hyphen or slash, nothing else. -/
def rollMatch (s : String) : Bool :=
  match s.toList with
  | [] => false
  | c :: rest =>
    c.isAlphanum && decide (4 ≤ rest.length) &&
      rest.all (fun ch => ch.isAlphanum || ch == '-' || ch == '/')

/-- The regex `^(10(?:\.0+)?|[0-9](?:\.\d{1,2})?)$` (line 360). -/
def sgpaMatch (s : String) : Bool :=
  match s.toList with
  | ['1', '0'] => true
  | '1' :: '0' :: '.' :: rest => !rest.isEmpty && rest.all (fun ch => ch == '0')
  | [d] => d.isDigit
  | d :: '.' :: rest =>
    d.isDigit && (rest.length == 1 || rest.length == 2) &&
      rest.all (fun ch => ch.isDigit)
  | _ => false

def digitVal (c : Char) : ℕ := c.toNat - 48

/-- Python `float(sgpa_raw)` on a string the sgpa regex accepted, as an
exact rational. -/
def sgpaVal (s : String) : ℚ :=
  match s.toList with
  | ['1', '0'] => 10
  | '1' :: '0' :: '.' :: _ => 10
  | [d] => (digitVal d : ℚ)
  | [d, '.', a] => (digitVal d : ℚ) + (digitVal a : ℚ) / 10
  | [d, '.', a, b] => (digitVal d : ℚ) + (digitVal a : ℚ) / 10 + (digitVal b : ℚ) / 100
  | _ => 0

/-- Line 383: `str(row[roll_idx] or "").strip().upper().replace(" ", "")`. -/
def normalizeRoll (s : String) : String := stripSpaces (sUpper (sTrim s))

structure ParsedRow where
  roll_no : String
  name : String
  sgpa : ℚ
  backlog : ℤ
deriving DecidableEq

/-- One data row of a recognized grid (app.py lines 383-408), given the
text of the roll, name, sgpa and backlog cells (a cell that is absent or
out of range is the empty string, matching `or ""` / the index guards).
`none` models `continue`, i.e. the row is silently dropped. -/
def parse_row (rollCell nameCell sgpaCell backlogCell : String) : Option ParsedRow :=
  let roll_no := normalizeRoll rollCell
  let sgpa_raw := sTrim sgpaCell
  if roll_no = "" || sgpa_raw = "" then none
  else if !(rollMatch roll_no) then none
  else if !(sgpaMatch sgpa_raw) then none
  else
    let name := sTrim nameCell
    let b := sTrim backlogCell
    let backlog : ℤ := if isDigitStr b then (parseNatDigits b.toList : ℤ) else 0
    some ⟨roll_no, name, sgpaVal sgpa_raw, backlog⟩

/-- Line 368: `[str(c or "").strip().lower() for c in table[0]]`. -/
def headerCells (row : List String) : List String :=
  row.map (fun c => sLower (sTrim c))

/-- Lines 369-371: first header cell containing "roll" or "enroll". -/
def rollIdxOf (header : List String) : Option ℕ :=
  header.findIdx? (fun c => strContainsSub c "roll" || strContainsSub c "enroll")

/-- Line 372: first header cell containing "sgpa". -/
def sgpaIdxOf (header : List String) : Option ℕ :=
  header.findIdx? (fun c => strContainsSub c "sgpa")

/-- The conditions under which a whole table grid is skipped (`continue`):
`not table or len(table) < 2` on line 366, and
`roll_idx is None or sgpa_idx is None` on line 377. -/
def gridSkipped (table : List (List String)) : Bool :=
  if table.length < 2 then true
  else
    match table with
    | [] => true
    | headerRow :: _ =>
      let header := headerCells headerRow
      (rollIdxOf header).isNone || (sgpaIdxOf header).isNone

/-! ### EligibilityEvaluator (`allowed_for_company`, app.py lines 412-431) -/

/-- The deny/allow messages of `allowed_for_company`, with the values the
Python f-strings interpolate carried as data. -/
inductive Reason where
  | already_placed_externally
  | already_interned_externally
  | already_interned_campus
  | blocked (msg : String)
  | branch_not_eligible (branch companyName : String)
  | cgpa_below_min (cgpa minCgpa : ℚ)
  | backlogs_exceed_max (backlogs maxBacklogs : ℤ)
  | eligible
deriving DecidableEq

/-- Method `Company.branch_list` (app.py lines 140-144). -/
def branch_list (c : Company) : List String :=
  let text := sTrim (if c.eligible_branches = "" then "ALL" else c.eligible_branches)
  if sUpper text = "ALL" then ["ALL"]
  else ((splitComma text).filter (fun item => sTrim item ≠ "")).map
    (fun item => sUpper (sTrim item))

def findCompany (comps : List Company) (cid : ℕ) : Option Company :=
  comps.find? (fun c => c.id == cid)

/-- Line 420: `student.blocked_by_company.name if student.blocked_by_company
else "policy"`. -/
def blockedDefaultBy (comps : List Company) (s : Student) : String :=
  match s.blocked_by_company_id.bind (findCompany comps) with
  | some c => c.name
  | none => "policy"

/-- Lines 420-421: the reason returned for a BLOCKED_BY_POLICY student. -/
def blockedReason (comps : List Company) (s : Student) : String :=
  (s.block_reason).getD ("Blocked after selection in " ++ blockedDefaultBy comps s ++ ".")

/-- Function `allowed_for_company` (app.py lines 412-431). `comps` is the company
table, used to resolve the `blocked_by_company` relationship. -/
def allowed_for_company (comps : List Company) (s : Student) (c : Company) :
    Bool × Reason :=
  if s.eligibility_status = .EXTERNAL_PLACED then
    (false, .already_placed_externally)
  else if s.eligibility_status = .EXTERNAL_INTERN then
    (false, .already_interned_externally)
  else if s.eligibility_status = .CAMPUS_INTERN then
    (false, .already_interned_campus)
  else if s.eligibility_status = .BLOCKED_BY_POLICY then
    (false, .blocked (blockedReason comps s))
  else
    let branches := branch_list c
    if !(branches.contains "ALL") && !(branches.contains (sUpper s.branch)) then
      (false, .branch_not_eligible s.branch c.name)
    else if s.cgpa < c.min_cgpa then
      (false, .cgpa_below_min s.cgpa c.min_cgpa)
    else if s.total_backlogs > c.max_backlogs then
      (false, .backlogs_exceed_max s.total_backlogs c.max_backlogs)
    else
      (true, .eligible)

/-- Modelled from the spec's words in section 4.4: the eight rules "in this
fixed priority order (first applicable reason wins)", as an ordered rule
list searched for the first applicable deny condition. Compared against
`allowed_for_company` for the refinement claim C1. -/
def evaluate_spec_rules (comps : List Company) (s : Student) (c : Company) :
    List (Bool × Reason) :=
  [ (decide (s.eligibility_status = .EXTERNAL_PLACED), .already_placed_externally),
    (decide (s.eligibility_status = .EXTERNAL_INTERN), .already_interned_externally),
    (decide (s.eligibility_status = .CAMPUS_INTERN), .already_interned_campus),
    (decide (s.eligibility_status = .BLOCKED_BY_POLICY), .blocked (blockedReason comps s)),
    (!((branch_list c).contains "ALL") && !((branch_list c).contains (sUpper s.branch)),
      .branch_not_eligible s.branch c.name),
    (decide (s.cgpa < c.min_cgpa), .cgpa_below_min s.cgpa c.min_cgpa),
    (decide (s.total_backlogs > c.max_backlogs),
      .backlogs_exceed_max s.total_backlogs c.max_backlogs) ]

/-- Modelled from the spec's words in section 4.4: deny with the first
applicable rule's reason, otherwise allow. -/
def evaluate_spec (comps : List Company) (s : Student) (c : Company) :
    Bool × Reason :=
  match (evaluate_spec_rules comps s c).find? (fun rule => rule.1) with
  | some rule => (false, rule.2)
  | none => (true, .eligible)

/-! ### BlockingPolicyResolver (`recompute_blocking_status`, app.py lines 434-454) -/

/-- The join condition of the query on lines 435-445: the application's
company row exists and has `selection_policy == "BLOCKING"`. -/
def isBlockingCompany (comps : List Company) (cid : ℕ) : Bool :=
  match findCompany comps cid with
  | some c => c.selection_policy = .BLOCKING
  | none => false

/-- The filtered query: this student's applications with
`status == "SELECTED"` at a BLOCKING company. -/
def selectedBlockingApps (apps : List Application) (comps : List Company) :
    List Application :=
  apps.filter (fun a => a.status = .SELECTED && isBlockingCompany comps a.company_id)

def betterApp (acc : Option Application) (a : Application) : Option Application :=
  match acc with
  | none => some a
  | some b => if b.applied_at < a.applied_at then some a else some b

/-- The query tail `order_by(Application.applied_at.desc()).first()`: the application
with the greatest timestamp (the first such one on ties). -/
def mostRecentApp (l : List Application) : Option Application :=
  l.foldl betterApp none

def companyName (comps : List Company) (cid : ℕ) : String :=
  match findCompany comps cid with
  | some c => c.name
  | none => ""

/-- Function `recompute_blocking_status` (app.py lines 434-454). `apps` is the list
of this student's Application rows. Returns the updated student row. -/
def recompute_blocking_status (student : Student) (apps : List Application)
    (comps : List Company) : Student :=
  match mostRecentApp (selectedBlockingApps apps comps) with
  | some a =>
    { student with
        eligibility_status := .BLOCKED_BY_POLICY,
        blocked_by_company_id := some a.company_id,
        block_reason := some ("Selected in blocking company: " ++ companyName comps a.company_id) }
  | none =>
    if student.eligibility_status = .BLOCKED_BY_POLICY then
      { student with
          eligibility_status := .ELIGIBLE,
          blocked_by_company_id := none,
          block_reason := none }
    else student

/-! ### ImportReconciler (the row loop of `import_sgpa`, app.py lines 650-700) -/

/-- The Student constructed on lines 657-662 (column defaults from the
model declaration: not lateral, cgpa 0.0, 0 backlogs, ELIGIBLE, no block). -/
def newStudent (row : ParsedRow) (branch : String) (semester_no : ℤ) : Student :=
  { roll_no := row.roll_no
    name := if row.name = "" then row.roll_no else row.name
    branch := branch
    is_lateral_entry := false
    current_semester := semester_no
    cgpa := 0
    total_backlogs := 0
    eligibility_status := .ELIGIBLE
    block_reason := none
    blocked_by_company_id := none }

/-- The observable state the import loop reads and writes: the student and
performance tables plus the three counters reported to the caller
(lines 650-652 and 697-700). -/
structure ImportState where
  students : List Student
  perfs : List SemesterPerformance
  updated : ℕ
  created_students : ℕ
  skipped_lateral : ℕ
deriving DecidableEq

/-- In-place mutation of the (unique) student row with this roll number. -/
def replaceStudent (students : List Student) (s : Student) : List Student :=
  students.map (fun t => if t.roll_no == s.roll_no then s else t)

/-- Upsert of the (student, semester) performance row, lines 673-690. -/
def upsertPerf (roll : String) (semester_no : ℤ) (sgpa credits : ℚ)
    (backlog : ℤ) (src : String) (perfs : List SemesterPerformance) :
    List SemesterPerformance :=
  match perfs.find? (fun r => r.roll_no == roll && r.semester_no == semester_no) with
  | some _ =>
    perfs.map (fun r =>
      if r.roll_no == roll && r.semester_no == semester_no then
        { r with sgpa := sgpa, semester_credits := credits,
                 backlog_count := backlog, source_file := src }
      else r)
  | none => perfs ++ [⟨roll, semester_no, sgpa, credits, backlog, src⟩]

/-- One iteration of the import loop (app.py lines 654-694): look up or
create the student, skip cross-branch rows, skip (and count) lateral
pre-semester-3 rows, upsert the performance row, advance the semester,
refresh the cached metrics, count the row as updated. -/
def importStep (branch : String) (semester_no : ℤ) (semester_credits : ℚ)
    (src : String) (st : ImportState) (row : ParsedRow) : ImportState :=
  let found := st.students.find? (fun s => s.roll_no == row.roll_no)
  let student := found.getD (newStudent row branch semester_no)
  let st :=
    match found with
    | some _ => st
    | none =>
      { st with students := st.students ++ [student],
                created_students := st.created_students + 1 }
  if sUpper student.branch ≠ branch then st
  else if student.is_lateral_entry && decide (semester_no < 3) then
    { st with skipped_lateral := st.skipped_lateral + 1 }
  else
    let perfs := upsertPerf student.roll_no semester_no row.sgpa semester_credits
      row.backlog src st.perfs
    let student := { student with
      current_semester := max student.current_semester semester_no }
    let student := { student with
      cgpa := calculate_cgpa student perfs,
      total_backlogs := calculate_backlog student perfs }
    { st with
        students := replaceStudent st.students student,
        perfs := perfs,
        updated := st.updated + 1 }

/-- The whole import loop over the parsed rows, starting from the counters
`updated = created_students = skipped_lateral = 0` (lines 650-652). -/
def import_sgpa_rows (branch : String) (semester_no : ℤ) (semester_credits : ℚ)
    (src : String) (rows : List ParsedRow) (students : List Student)
    (perfs : List SemesterPerformance) : ImportState :=
  rows.foldl (importStep branch semester_no semester_credits src)
    ⟨students, perfs, 0, 0, 0⟩

/-! ### Manual backlog correction (`update_backlog`, app.py lines 706-734) -/

/-- The query `SemesterPerformance.query.filter_by(student_id=..., semester_no=...).first()`. -/
def findPerf (roll : String) (sem : ℤ) (db : List SemesterPerformance) :
    Option SemesterPerformance :=
  db.find? (fun r => r.roll_no == roll && r.semester_no == sem)

/-- The in-place write `perf.backlog_count = new_backlog` (line 720). -/
def setBacklog (roll : String) (sem : ℤ) (newB : ℤ)
    (db : List SemesterPerformance) : List SemesterPerformance :=
  db.map (fun r =>
    if r.roll_no == roll && r.semester_no == sem then
      { r with backlog_count := newB }
    else r)

/-- Function `update_backlog` (app.py lines 706-734): `none` models the
"Semester record not found" early return; otherwise returns the updated
student row, performance table, and audit ledger. -/
def update_backlog (s : Student) (db : List SemesterPerformance)
    (ledger : List BacklogUpdateRec) (sem : ℤ) (newB : ℤ) (note : String) :
    Option (Student × List SemesterPerformance × List BacklogUpdateRec) :=
  match findPerf s.roll_no sem db with
  | none => none
  | some perf =>
    let db' := setBacklog s.roll_no sem newB db
    let entry : BacklogUpdateRec :=
      ⟨s.roll_no, sem, perf.backlog_count, newB, sTrim note⟩
    let s' := { s with
      cgpa := calculate_cgpa s db',
      total_backlogs := calculate_backlog s db' }
    some (s', db', ledger ++ [entry])

/-! ### Manual eligibility update (`update_eligibility_status`, app.py lines 737-757) -/

/-- Function `update_eligibility_status` (app.py lines 746-753), after the status
has passed the `ELIGIBILITY_STATUSES` validation. `note` is the stripped
`block_reason` form field. -/
def update_eligibility_status (s : Student) (status : EligStatus)
    (note : String) : Student :=
  let n := sTrim note
  let s1 := { s with eligibility_status := status }
  if status = .BLOCKED_BY_POLICY then
    { s1 with block_reason := some (if n = "" then "Manually blocked by placement policy." else n) }
  else
    let s2 := { s1 with block_reason := if n = "" then none else some n }
    if status ≠ .BLOCKED_BY_POLICY then
      { s2 with blocked_by_company_id := none }
    else s2

/-- The implicit invariant of claim C10 (Student model, app.py lines 91-93). -/
def blockInvariant (s : Student) : Prop :=
  s.eligibility_status ≠ .BLOCKED_BY_POLICY → s.blocked_by_company_id = none

/-! ### Helper lemmas -/

lemma sumSplit {α : Type} (p : α → Bool) (f : α → ℤ) (l : List α) :
    ((l.filter p).map f).sum + ((l.filter (fun a => !(p a))).map f).sum
      = (l.map f).sum := by
  induction l with
  | nil => simp
  | cons a t ih =>
    cases h : p a <;> simp [List.filter_cons, h] <;> omega

lemma mostRecentApp_nil : mostRecentApp [] = none := rfl

lemma foldl_betterApp_some (l : List Application) (b : Application) :
    ∃ x, l.foldl betterApp (some b) = some x ∧ (x = b ∨ x ∈ l)
      ∧ b.applied_at ≤ x.applied_at
      ∧ ∀ y ∈ l, y.applied_at ≤ x.applied_at := by
  induction l generalizing b with
  | nil => exact ⟨b, rfl, Or.inl rfl, le_refl _, by simp⟩
  | cons a t ih =>
    simp only [List.foldl_cons]
    by_cases h : b.applied_at < a.applied_at
    · obtain ⟨x, hx, hmem, hle, hall⟩ := ih a
      refine ⟨x, ?_, ?_, ?_, ?_⟩
      · simpa [betterApp, h] using hx
      · rcases hmem with h' | h'
        · exact Or.inr (by simp [h'])
        · exact Or.inr (List.mem_cons_of_mem _ h')
      · exact le_of_lt (lt_of_lt_of_le h hle)
      · intro y hy
        rcases List.mem_cons.1 hy with h' | h'
        · exact h' ▸ hle
        · exact hall y h'
    · obtain ⟨x, hx, hmem, hle, hall⟩ := ih b
      refine ⟨x, ?_, ?_, ?_, ?_⟩
      · simpa [betterApp, h] using hx
      · rcases hmem with h' | h'
        · exact Or.inl h'
        · exact Or.inr (List.mem_cons_of_mem _ h')
      · exact hle
      · intro y hy
        rcases List.mem_cons.1 hy with h' | h'
        · exact h' ▸ le_trans (le_of_not_lt h) hle
        · exact hall y h'

lemma mostRecentApp_spec (l : List Application) (hl : l ≠ []) :
    ∃ x, mostRecentApp l = some x ∧ x ∈ l
      ∧ ∀ y ∈ l, y.applied_at ≤ x.applied_at := by
  cases l with
  | nil => exact absurd rfl hl
  | cons a t =>
    obtain ⟨x, hx, hmem, hle, hall⟩ := foldl_betterApp_some t a
    refine ⟨x, ?_, ?_, ?_⟩
    · simpa [mostRecentApp, betterApp] using hx
    · rcases hmem with h' | h'
      · simp [h']
      · exact List.mem_cons_of_mem _ h'
    · intro y hy
      rcases List.mem_cons.1 hy with h' | h'
      · exact h' ▸ hle
      · exact hall y h'

lemma ratFloor_intCast (n : ℤ) : ratFloor ((n : ℚ)) = n := by
  unfold ratFloor
  rw [Rat.num_intCast, Rat.den_intCast]
  simp [Int.fdiv_one]

lemma roundHalfEven_intCast (n : ℤ) : roundHalfEven ((n : ℚ)) = n := by
  unfold roundHalfEven
  rw [ratFloor_intCast]
  norm_num

/-! ### Claim C5 -/

/-- C5: `total_backlogs` as computed by `calculate_backlog` is the sum of
`max(0, backlog_count)` over all of the student's SemesterPerformance
records; no record is excluded by the lateral-entry semester filter or the
positive-credits filter that apply to CGPA (records the CGPA filter drops
still contribute their full share). -/
theorem c5_calculate_backlog_counts_all_records (s : Student)
    (db : List SemesterPerformance) :
    calculate_backlog s db
      = ((studentRecords s.roll_no db).map (fun r => max 0 r.backlog_count)).sum
    ∧ calculate_backlog s db
      = ((usableRecords s.is_lateral_entry (studentRecords s.roll_no db)).map
          (fun r => max 0 r.backlog_count)).sum
        + (((studentRecords s.roll_no db).filter
            (fun r => !(usablePred s.is_lateral_entry r))).map
            (fun r => max 0 r.backlog_count)).sum := by
  refine ⟨rfl, ?_⟩
  unfold calculate_backlog usableRecords
  exact (sumSplit (usablePred s.is_lateral_entry)
    (fun r => max 0 r.backlog_count) (studentRecords s.roll_no db)).symm

/-! ### Claim C3 -/

/-- C3 counterexample: a student manually marked EXTERNAL_PLACED who has a
SELECTED application at a BLOCKING company does NOT keep that status when
the resolver runs — `recompute_blocking_status` overwrites it with
BLOCKED_BY_POLICY, so the claim "leaves that eligibility_status unchanged,
regardless of whether the student has a SELECTED application at a
BLOCKING-policy company" is false. -/
theorem c3_resolver_clobbers_manual_status_counterexample :
    (⟨"R-10001", "S", "CSE", false, 6, 0, 0, .EXTERNAL_PLACED, none, none⟩ :
        Student).eligibility_status = .EXTERNAL_PLACED
    ∧ (recompute_blocking_status
        ⟨"R-10001", "S", "CSE", false, 6, 0, 0, .EXTERNAL_PLACED, none, none⟩
        [⟨1, .SELECTED, 5⟩]
        [⟨1, "BlockCo", "ALL", 0, 999, .BLOCKING⟩]).eligibility_status
      ≠ .EXTERNAL_PLACED := by
  exact ⟨rfl, by decide⟩

/-- C3 (amended): the resolver leaves a manually-set status
(EXTERNAL_PLACED, EXTERNAL_INTERN or CAMPUS_INTERN) untouched — indeed the
whole student row — provided the student has no SELECTED application at a
BLOCKING-policy company; when such an application exists the resolver
overwrites the status with BLOCKED_BY_POLICY. -/
theorem c3_resolver_keeps_manual_status_amended (s : Student)
    (apps : List Application) (comps : List Company)
    (hs : s.eligibility_status = .EXTERNAL_PLACED
      ∨ s.eligibility_status = .EXTERNAL_INTERN
      ∨ s.eligibility_status = .CAMPUS_INTERN)
    (hnone : selectedBlockingApps apps comps = []) :
    recompute_blocking_status s apps comps = s := by
  unfold recompute_blocking_status
  rw [hnone, mostRecentApp_nil]
  rcases hs with h | h | h <;> simp [h]

/-- Witness for C3 (amended) at a concrete CAMPUS_INTERN student whose only
SELECTED application is at a NON_BLOCKING company. -/
theorem c3_resolver_keeps_manual_status_amended_witness :
    recompute_blocking_status
        ⟨"R-10002", "T", "ECE", false, 5, 0, 0, .CAMPUS_INTERN, none, none⟩
        [⟨1, .SELECTED, 5⟩]
        [⟨1, "NBCo", "ALL", 0, 999, .NON_BLOCKING⟩]
      = ⟨"R-10002", "T", "ECE", false, 5, 0, 0, .CAMPUS_INTERN, none, none⟩ :=
  c3_resolver_keeps_manual_status_amended _ _ _ (Or.inr (Or.inr rfl)) (by decide)

/-! ### Claim C8 -/

/-- C8 counterexample: a grid whose header has a roll column but no sgpa
column is skipped by the parser, although it does not lack both indices —
so "skips the grid entirely exactly when the grid lacks both a roll-index
and an sgpa-index; a grid is otherwise processed" is false. -/
theorem c8_grid_skip_counterexample :
    gridSkipped [["Roll No", "Name"], ["cs21-001", "x"]] = true
    ∧ ¬ (rollIdxOf (headerCells ["Roll No", "Name"]) = none
          ∧ sgpaIdxOf (headerCells ["Roll No", "Name"]) = none) := by
  decide

/-- C8 (amended): a grid with at least a header row and one data row is
skipped entirely exactly when it lacks a roll-index OR lacks an
sgpa-index (not only when it lacks both). -/
theorem c8_grid_skip_iff_amended (table : List (List String))
    (h : 2 ≤ table.length) :
    gridSkipped table = true
      ↔ (rollIdxOf (headerCells (table.headD [])) = none
          ∨ sgpaIdxOf (headerCells (table.headD [])) = none) := by
  match table with
  | headerRow :: rest =>
    have hlen : ¬ (headerRow :: rest).length < 2 := by
      simpa using h
    unfold gridSkipped
    rw [if_neg hlen]
    simp [Option.isNone_iff_eq_none]

/-- Witness for C8 (amended): a grid with both a roll and an sgpa header is
not skipped, and its two indices both exist. -/
theorem c8_grid_skip_iff_amended_witness :
    (gridSkipped [["Roll No", "SGPA"], ["cs21-001", "8.00"]] = true
      ↔ (rollIdxOf (headerCells ["Roll No", "SGPA"]) = none
          ∨ sgpaIdxOf (headerCells ["Roll No", "SGPA"]) = none)) :=
  c8_grid_skip_iff_amended _ (by decide)

/-! ### Claim C10 -/

/-- C10: both writers of eligibility state preserve the invariant
"eligibility_status ≠ BLOCKED_BY_POLICY → blocked_by_company_id is None":
the resolver clears the reference whenever it reverts BLOCKED_BY_POLICY,
and the manual status update clears it for every non-BLOCKED_BY_POLICY
target status. -/
theorem c10_block_reference_invariant_preserved (s : Student)
    (apps : List Application) (comps : List Company) (status : EligStatus)
    (note : String) (h : blockInvariant s) :
    blockInvariant (recompute_blocking_status s apps comps)
    ∧ blockInvariant (update_eligibility_status s status note) := by
  constructor
  · unfold recompute_blocking_status
    cases hm : mostRecentApp (selectedBlockingApps apps comps) with
    | some a => intro hne; exact absurd rfl hne
    | none =>
      by_cases hb : s.eligibility_status = .BLOCKED_BY_POLICY
      · rw [if_pos hb]; intro _; rfl
      · rw [if_neg hb]; exact h
  · unfold update_eligibility_status
    by_cases hb : status = .BLOCKED_BY_POLICY
    · rw [if_pos hb]; intro hne; exact absurd hb hne
    · rw [if_neg hb, if_pos hb]; intro _; rfl

/-- Witness for C10 at a concrete ELIGIBLE student with no block reference. -/
theorem c10_block_reference_invariant_preserved_witness :
    blockInvariant (recompute_blocking_status
        ⟨"R-10003", "U", "CSE", false, 1, 0, 0, .ELIGIBLE, none, none⟩ [] [])
    ∧ blockInvariant (update_eligibility_status
        ⟨"R-10003", "U", "CSE", false, 1, 0, 0, .ELIGIBLE, none, none⟩
        .EXTERNAL_INTERN "internship at X") :=
  c10_block_reference_invariant_preserved _ [] [] .EXTERNAL_INTERN
    "internship at X" (fun _ => rfl)

/-! ### Claim C7 -/

/-- C7: a data row of a recognized grid is emitted exactly when the
normalized roll value (trimmed, uppercased, spaces removed) matches the
roll pattern (letter or digit followed by at least 4 letters, digits,
hyphens or slashes) and the trimmed SGPA text matches the 0-10 grade
pattern with at most two decimals ("10.5" rejected; 10 accepted only as
"10" or "10.0..."); the row ["cs21-001", "  ", "8.00", "2"] normalizes to
roll CS21-001 and is accepted with sgpa 8 and backlog 2. -/
theorem c7_parse_row_validation :
    (∀ rollCell nameCell sgpaCell backlogCell,
      (parse_row rollCell nameCell sgpaCell backlogCell).isSome
        = (rollMatch (normalizeRoll rollCell) && sgpaMatch (sTrim sgpaCell)))
    ∧ parse_row "cs21-001" "  " "8.00" "2" = some ⟨"CS21-001", "", 8, 2⟩
    ∧ parse_row "cs21-001" "  " "10.5" "2" = none
    ∧ sgpaMatch "10" = true ∧ sgpaMatch "10.0" = true
    ∧ sgpaMatch "10.5" = false := by
  refine ⟨?_, ?_, by decide, by decide, by decide, by decide⟩
  · intro rc nc sc bc
    unfold parse_row
    by_cases h1 : normalizeRoll rc = ""
    · have hr : rollMatch "" = false := rfl
      simp [h1, hr]
    · by_cases h2 : sTrim sc = ""
      · have hg : sgpaMatch "" = false := rfl
        simp [h1, h2, hg]
      · cases hr : rollMatch (normalizeRoll rc) <;>
          cases hg : sgpaMatch (sTrim sc) <;> simp [h1, h2, hr, hg]
  · have hn8 : digitVal '8' = 8 := rfl
    have hn0 : digitVal '0' = 0 := rfl
    have e2 : sgpaVal "8.00" = 8 := by
      show (digitVal '8' : ℚ) + (digitVal '0' : ℚ) / 10
          + (digitVal '0' : ℚ) / 100 = 8
      rw [hn8, hn0]
      norm_num
    have e1 : parse_row "cs21-001" "  " "8.00" "2"
        = some ⟨"CS21-001", "", sgpaVal "8.00", 2⟩ := rfl
    rw [e2] at e1
    exact e1

/-! ### Claim C2 -/

lemma usablePred_credits_pos {lat : Bool} {r : SemesterPerformance}
    (h : usablePred lat r = true) : 0 < r.semester_credits := by
  unfold usablePred at h
  rw [Bool.and_eq_true] at h
  exact of_decide_eq_true h.2

lemma calculate_cgpa_pos (s : Student) (db : List SemesterPerformance)
    (h : usableRecords s.is_lateral_entry (studentRecords s.roll_no db) ≠ []) :
    calculate_cgpa s db
      = round2 (((usableRecords s.is_lateral_entry (studentRecords s.roll_no db)).map
          (fun r => r.sgpa * r.semester_credits)).sum
        / ((usableRecords s.is_lateral_entry (studentRecords s.roll_no db)).map
          (fun r => r.semester_credits)).sum) := by
  have hrec : studentRecords s.roll_no db ≠ [] := by
    intro he
    exact h (by simp [usableRecords, he])
  have hpos : 0 < ((usableRecords s.is_lateral_entry
      (studentRecords s.roll_no db)).map (fun r => r.semester_credits)).sum := by
    apply List.sum_pos
    · intro q hq
      obtain ⟨r, hr, rfl⟩ := List.mem_map.1 hq
      exact usablePred_credits_pos (List.mem_filter.1 hr).2
    · intro hm
      exact h (List.map_eq_nil_iff.1 hm)
  simp only [calculate_cgpa]
  rw [if_neg hrec, if_neg h, if_neg (not_le.mpr hpos)]

/-- C2: `calculate_cgpa` returns 0 when the student has no performance
records; it filters to records with `semester_no ≥ (3 if lateral else 1)`
and positive credits, returns 0 when the filtered set is empty or its
total credits are ≤ 0, and otherwise returns the credit-weighted mean of
SGPA rounded to two decimals; a non-lateral student with semester 1 SGPA
8.0 / 20 credits and semester 2 SGPA 9.0 / 20 credits gets cgpa 8.5. -/
theorem c2_calculate_cgpa_spec (s : Student) (db : List SemesterPerformance) :
    (studentRecords s.roll_no db = [] → calculate_cgpa s db = 0)
    ∧ (usableRecords s.is_lateral_entry (studentRecords s.roll_no db) = []
        ∨ ((usableRecords s.is_lateral_entry (studentRecords s.roll_no db)).map
            (fun r => r.semester_credits)).sum ≤ 0
        → calculate_cgpa s db = 0)
    ∧ (usableRecords s.is_lateral_entry (studentRecords s.roll_no db) ≠ []
        → calculate_cgpa s db
          = round2 (((usableRecords s.is_lateral_entry
                (studentRecords s.roll_no db)).map
              (fun r => r.sgpa * r.semester_credits)).sum
            / ((usableRecords s.is_lateral_entry
                (studentRecords s.roll_no db)).map
              (fun r => r.semester_credits)).sum))
    ∧ calculate_cgpa
        ⟨"CS2021001", "A", "CSE", false, 2, 0, 0, .ELIGIBLE, none, none⟩
        [⟨"CS2021001", 1, 8, 20, 0, "f.pdf"⟩, ⟨"CS2021001", 2, 9, 20, 0, "f.pdf"⟩]
        = 17/2 := by
  refine ⟨?_, ?_, calculate_cgpa_pos s db, ?_⟩
  · intro h
    simp only [calculate_cgpa]
    rw [if_pos h]
  · rintro (h | h)
    · by_cases hrec : studentRecords s.roll_no db = []
      · simp only [calculate_cgpa]; rw [if_pos hrec]
      · simp only [calculate_cgpa]; rw [if_neg hrec, if_pos h]
    · by_cases hrec : studentRecords s.roll_no db = []
      · simp only [calculate_cgpa]; rw [if_pos hrec]
      · by_cases hu : usableRecords s.is_lateral_entry
            (studentRecords s.roll_no db) = []
        · simp only [calculate_cgpa]; rw [if_neg hrec, if_pos hu]
        · simp only [calculate_cgpa]; rw [if_neg hrec, if_neg hu, if_pos h]
  · have h3 := calculate_cgpa_pos
      ⟨"CS2021001", "A", "CSE", false, 2, 0, 0, .ELIGIBLE, none, none⟩
      [⟨"CS2021001", 1, 8, 20, 0, "f.pdf"⟩, ⟨"CS2021001", 2, 9, 20, 0, "f.pdf"⟩]
      (by decide)
    rw [h3]
    norm_num [usableRecords, studentRecords, usablePred, minSemester,
      List.filter]
    unfold round2
    rw [show ((17 : ℚ) / 2 * 100) = ((850 : ℤ) : ℚ) from by norm_num,
      roundHalfEven_intCast]
    norm_num

/-- Witness for C2: a student with no records gets 0, a lateral-entry
student with only a semester-1 record gets 0, and the worked example's
cgpa is the rounded credit-weighted mean. -/
theorem c2_calculate_cgpa_spec_witness :
    calculate_cgpa
        ⟨"R-20001", "W", "CSE", false, 1, 0, 0, .ELIGIBLE, none, none⟩ [] = 0
    ∧ calculate_cgpa
        ⟨"LE-30001", "L", "CSE", true, 2, 0, 0, .ELIGIBLE, none, none⟩
        [⟨"LE-30001", 1, 8, 20, 2, "g.pdf"⟩] = 0
    ∧ calculate_cgpa
        ⟨"CS2021001", "A", "CSE", false, 2, 0, 0, .ELIGIBLE, none, none⟩
        [⟨"CS2021001", 1, 8, 20, 0, "f.pdf"⟩, ⟨"CS2021001", 2, 9, 20, 0, "f.pdf"⟩]
        = round2 (((usableRecords false (studentRecords "CS2021001"
              [⟨"CS2021001", 1, 8, 20, 0, "f.pdf"⟩,
               ⟨"CS2021001", 2, 9, 20, 0, "f.pdf"⟩])).map
            (fun r => r.sgpa * r.semester_credits)).sum
          / ((usableRecords false (studentRecords "CS2021001"
              [⟨"CS2021001", 1, 8, 20, 0, "f.pdf"⟩,
               ⟨"CS2021001", 2, 9, 20, 0, "f.pdf"⟩])).map
            (fun r => r.semester_credits)).sum) :=
  ⟨(c2_calculate_cgpa_spec _ _).1 rfl,
   (c2_calculate_cgpa_spec _ _).2.1 (Or.inl (by decide)),
   (c2_calculate_cgpa_spec _ _).2.2.1 (by decide)⟩

/-! ### Claim C1 -/

/-- C1: `allowed_for_company` tests its deny conditions in the fixed
priority order EXTERNAL_PLACED, EXTERNAL_INTERN, CAMPUS_INTERN,
BLOCKED_BY_POLICY, branch-whitelist mismatch, cgpa below min_cgpa,
backlogs above max_backlogs, with the first applicable reason winning
(it coincides with the first-applicable-rule evaluation of the ordered
rule list); in particular a student who is both BLOCKED_BY_POLICY and
below the company's min CGPA is denied with the BLOCKED_BY_POLICY reason
and not with the CGPA reason. -/
theorem c1_allowed_for_company_priority (comps : List Company) (s : Student)
    (c : Company) :
    allowed_for_company comps s c = evaluate_spec comps s c
    ∧ (s.eligibility_status = .BLOCKED_BY_POLICY ∧ s.cgpa < c.min_cgpa →
        allowed_for_company comps s c = (false, .blocked (blockedReason comps s))
        ∧ ∀ q1 q2 : ℚ,
            (allowed_for_company comps s c).2 ≠ .cgpa_below_min q1 q2) := by
  constructor
  · unfold allowed_for_company evaluate_spec evaluate_spec_rules
    cases hs : s.eligibility_status
    case EXTERNAL_PLACED => simp
    case EXTERNAL_INTERN => simp
    case CAMPUS_INTERN => simp
    case BLOCKED_BY_POLICY => simp
    case ELIGIBLE =>
      by_cases hAll : "ALL" ∈ branch_list c <;>
        by_cases hBr : sUpper s.branch ∈ branch_list c <;>
          by_cases hcg : s.cgpa < c.min_cgpa <;>
            by_cases hbk : c.max_backlogs < s.total_backlogs <;>
              simp [hAll, hBr, hcg, hbk]
  · rintro ⟨hb, _⟩
    unfold allowed_for_company
    simp [hb]

/-- Witness for C1: a BLOCKED_BY_POLICY student with cgpa 5, below the
company minimum of 7, is denied with the stored block reason and never
with the CGPA reason. -/
theorem c1_allowed_for_company_priority_witness :
    allowed_for_company []
        ⟨"R-40001", "B", "CSE", false, 6, 5, 0, .BLOCKED_BY_POLICY,
          some "Selected in blocking company: BlockCo", some 1⟩
        ⟨2, "NextCo", "ALL", 7, 0, .NON_BLOCKING⟩
      = (false, .blocked (blockedReason []
          ⟨"R-40001", "B", "CSE", false, 6, 5, 0, .BLOCKED_BY_POLICY,
            some "Selected in blocking company: BlockCo", some 1⟩))
    ∧ ∀ q1 q2 : ℚ,
        (allowed_for_company []
          ⟨"R-40001", "B", "CSE", false, 6, 5, 0, .BLOCKED_BY_POLICY,
            some "Selected in blocking company: BlockCo", some 1⟩
          ⟨2, "NextCo", "ALL", 7, 0, .NON_BLOCKING⟩).2
          ≠ .cgpa_below_min q1 q2 :=
  (c1_allowed_for_company_priority [] _ _).2 ⟨rfl, by decide⟩

/-! ### Claim C4 -/

/-- C4: after `recompute_blocking_status`, if the student has at least one
SELECTED application at a BLOCKING-policy company then the status is
BLOCKED_BY_POLICY, the blocking-company reference points to the company of
a most recent such application (greatest applied_at), and block_reason
names that company; if no such application exists and the status was
BLOCKED_BY_POLICY, the status reverts to ELIGIBLE and the reference and
reason are cleared. -/
theorem c4_recompute_blocking_spec (s : Student) (apps : List Application)
    (comps : List Company) :
    (selectedBlockingApps apps comps ≠ [] →
      (recompute_blocking_status s apps comps).eligibility_status
          = .BLOCKED_BY_POLICY
      ∧ ∃ a, a ∈ selectedBlockingApps apps comps
          ∧ (∀ b ∈ selectedBlockingApps apps comps,
              b.applied_at ≤ a.applied_at)
          ∧ (recompute_blocking_status s apps comps).blocked_by_company_id
              = some a.company_id
          ∧ (recompute_blocking_status s apps comps).block_reason
              = some ("Selected in blocking company: "
                  ++ companyName comps a.company_id))
    ∧ (selectedBlockingApps apps comps = [] →
        s.eligibility_status = .BLOCKED_BY_POLICY →
        (recompute_blocking_status s apps comps).eligibility_status = .ELIGIBLE
        ∧ (recompute_blocking_status s apps comps).blocked_by_company_id = none
        ∧ (recompute_blocking_status s apps comps).block_reason = none) := by
  constructor
  · intro h
    obtain ⟨x, hx, hmem, hall⟩ := mostRecentApp_spec _ h
    unfold recompute_blocking_status
    rw [hx]
    exact ⟨rfl, x, hmem, hall, rfl, rfl⟩
  · intro h hb
    unfold recompute_blocking_status
    rw [h, mostRecentApp_nil, if_pos hb]
    exact ⟨rfl, rfl, rfl⟩

/-- Witness for C4: the spec's own scenario — an earlier SELECTED
application at a NON_BLOCKING company and a later one at a BLOCKING
company block the student with the BLOCKING company's reference; a
student blocked with no remaining SELECTED-BLOCKING application reverts
to ELIGIBLE with the reference and reason cleared. -/
theorem c4_recompute_blocking_spec_witness :
    ((recompute_blocking_status
        ⟨"R-50001", "V", "CSE", false, 6, 8, 0, .ELIGIBLE, none, none⟩
        [⟨1, .SELECTED, 5⟩, ⟨2, .SELECTED, 9⟩]
        [⟨1, "NBCo", "ALL", 0, 999, .NON_BLOCKING⟩,
         ⟨2, "BCo", "ALL", 0, 999, .BLOCKING⟩]).eligibility_status
      = .BLOCKED_BY_POLICY
    ∧ ∃ a, a ∈ selectedBlockingApps
          [⟨1, .SELECTED, 5⟩, ⟨2, .SELECTED, 9⟩]
          [⟨1, "NBCo", "ALL", 0, 999, .NON_BLOCKING⟩,
           ⟨2, "BCo", "ALL", 0, 999, .BLOCKING⟩]
        ∧ (∀ b ∈ selectedBlockingApps
            [⟨1, .SELECTED, 5⟩, ⟨2, .SELECTED, 9⟩]
            [⟨1, "NBCo", "ALL", 0, 999, .NON_BLOCKING⟩,
             ⟨2, "BCo", "ALL", 0, 999, .BLOCKING⟩],
            b.applied_at ≤ a.applied_at)
        ∧ (recompute_blocking_status
            ⟨"R-50001", "V", "CSE", false, 6, 8, 0, .ELIGIBLE, none, none⟩
            [⟨1, .SELECTED, 5⟩, ⟨2, .SELECTED, 9⟩]
            [⟨1, "NBCo", "ALL", 0, 999, .NON_BLOCKING⟩,
             ⟨2, "BCo", "ALL", 0, 999, .BLOCKING⟩]).blocked_by_company_id
            = some a.company_id
        ∧ (recompute_blocking_status
            ⟨"R-50001", "V", "CSE", false, 6, 8, 0, .ELIGIBLE, none, none⟩
            [⟨1, .SELECTED, 5⟩, ⟨2, .SELECTED, 9⟩]
            [⟨1, "NBCo", "ALL", 0, 999, .NON_BLOCKING⟩,
             ⟨2, "BCo", "ALL", 0, 999, .BLOCKING⟩]).block_reason
            = some ("Selected in blocking company: "
                ++ companyName
                  [⟨1, "NBCo", "ALL", 0, 999, .NON_BLOCKING⟩,
                   ⟨2, "BCo", "ALL", 0, 999, .BLOCKING⟩] a.company_id))
    ∧ ((recompute_blocking_status
        ⟨"R-50002", "X", "CSE", false, 6, 8, 0, .BLOCKED_BY_POLICY,
          some "Selected in blocking company: BCo", some 2⟩
        [] []).eligibility_status = .ELIGIBLE
      ∧ (recompute_blocking_status
        ⟨"R-50002", "X", "CSE", false, 6, 8, 0, .BLOCKED_BY_POLICY,
          some "Selected in blocking company: BCo", some 2⟩
        [] []).blocked_by_company_id = none
      ∧ (recompute_blocking_status
        ⟨"R-50002", "X", "CSE", false, 6, 8, 0, .BLOCKED_BY_POLICY,
          some "Selected in blocking company: BCo", some 2⟩
        [] []).block_reason = none) :=
  ⟨(c4_recompute_blocking_spec _ _ _).1 (by decide),
   (c4_recompute_blocking_spec _ _ _).2 rfl rfl⟩

/-! ### Claim C6 -/

/-- C6 counterexample: importing a batch whose single row belongs to an
existing student of a different branch produces exactly the same
observable output — same tables and all three reported counters equal 0 —
as importing an empty batch, so cross-branch skips are NOT recorded as an
aggregate count observable by the caller (only updated / created /
lateral-skip counts exist, and none of them changes). -/
theorem c6_cross_branch_skip_counterexample :
    import_sgpa_rows "CSE" 3 20 "f.pdf" [⟨"AB-123", "Bob", 8, 2⟩]
        [⟨"AB-123", "Bob", "ECE", false, 3, 0, 0, .ELIGIBLE, none, none⟩] []
      = ⟨[⟨"AB-123", "Bob", "ECE", false, 3, 0, 0, .ELIGIBLE, none, none⟩],
          [], 0, 0, 0⟩
    ∧ import_sgpa_rows "CSE" 3 20 "f.pdf" []
        [⟨"AB-123", "Bob", "ECE", false, 3, 0, 0, .ELIGIBLE, none, none⟩] []
      = ⟨[⟨"AB-123", "Bob", "ECE", false, 3, 0, 0, .ELIGIBLE, none, none⟩],
          [], 0, 0, 0⟩ := by
  exact ⟨rfl, rfl⟩

/-- C6 (amended): a row whose existing student's stored branch differs
(case-insensitively, both sides upper-cased) from the batch branch is
skipped without touching any student or performance data — but the skip is
not counted: the whole import state, including all three observable
counters (updated, created, lateral skips), is left exactly as it was, so
no cross-branch aggregate count is reported to the caller. -/
theorem c6_cross_branch_skip_amended (branch : String) (semester_no : ℤ)
    (semester_credits : ℚ) (src : String) (st : ImportState) (row : ParsedRow)
    (s : Student)
    (hfind : st.students.find? (fun t => t.roll_no == row.roll_no) = some s)
    (hbr : sUpper s.branch ≠ branch) :
    importStep branch semester_no semester_credits src st row = st := by
  unfold importStep
  rw [hfind]
  simp [hbr]

/-- Witness for C6 (amended) at a concrete existing ECE student hit by a
CSE batch row. -/
theorem c6_cross_branch_skip_amended_witness :
    importStep "CSE" 3 20 "f.pdf"
        ⟨[⟨"AB-123", "Bob", "ECE", false, 3, 0, 0, .ELIGIBLE, none, none⟩],
          [], 0, 0, 0⟩
        ⟨"AB-123", "Bob", 8, 2⟩
      = ⟨[⟨"AB-123", "Bob", "ECE", false, 3, 0, 0, .ELIGIBLE, none, none⟩],
          [], 0, 0, 0⟩ :=
  c6_cross_branch_skip_amended "CSE" 3 20 "f.pdf" _ _
    ⟨"AB-123", "Bob", "ECE", false, 3, 0, 0, .ELIGIBLE, none, none⟩
    rfl (by decide)

/-! ### Claim C9 -/

/-- The per-record function `setBacklog` maps over the table. -/
def setBacklogFun (roll : String) (sem : ℤ) (newB : ℤ)
    (r : SemesterPerformance) : SemesterPerformance :=
  if r.roll_no == roll && r.semester_no == sem then
    { r with backlog_count := newB }
  else r

lemma setBacklog_eq_map (roll : String) (sem : ℤ) (newB : ℤ)
    (db : List SemesterPerformance) :
    setBacklog roll sem newB db = db.map (setBacklogFun roll sem newB) := rfl

lemma setBacklogFun_roll_no (roll : String) (sem : ℤ) (newB : ℤ)
    (r : SemesterPerformance) :
    (setBacklogFun roll sem newB r).roll_no = r.roll_no := by
  unfold setBacklogFun; split <;> rfl

lemma setBacklogFun_semester_no (roll : String) (sem : ℤ) (newB : ℤ)
    (r : SemesterPerformance) :
    (setBacklogFun roll sem newB r).semester_no = r.semester_no := by
  unfold setBacklogFun; split <;> rfl

lemma setBacklogFun_sgpa (roll : String) (sem : ℤ) (newB : ℤ)
    (r : SemesterPerformance) :
    (setBacklogFun roll sem newB r).sgpa = r.sgpa := by
  unfold setBacklogFun; split <;> rfl

lemma setBacklogFun_credits (roll : String) (sem : ℤ) (newB : ℤ)
    (r : SemesterPerformance) :
    (setBacklogFun roll sem newB r).semester_credits = r.semester_credits := by
  unfold setBacklogFun; split <;> rfl

lemma setBacklogFun_source (roll : String) (sem : ℤ) (newB : ℤ)
    (r : SemesterPerformance) :
    (setBacklogFun roll sem newB r).source_file = r.source_file := by
  unfold setBacklogFun; split <;> rfl

lemma studentRecords_setBacklog (roll2 roll : String) (sem : ℤ) (newB : ℤ)
    (db : List SemesterPerformance) :
    studentRecords roll2 (setBacklog roll sem newB db)
      = (studentRecords roll2 db).map (setBacklogFun roll sem newB) := by
  rw [setBacklog_eq_map]
  unfold studentRecords
  rw [List.filter_map]
  congr 1
  exact List.filter_congr
    (fun r _ => by simp [Function.comp, setBacklogFun_roll_no])

lemma usableRecords_map_setBacklog (lat : Bool) (roll : String) (sem : ℤ)
    (newB : ℤ) (l : List SemesterPerformance) :
    usableRecords lat (l.map (setBacklogFun roll sem newB))
      = (usableRecords lat l).map (setBacklogFun roll sem newB) := by
  unfold usableRecords
  rw [List.filter_map]
  congr 1
  exact List.filter_congr
    (fun r _ => by
      simp [Function.comp, usablePred, setBacklogFun_semester_no,
        setBacklogFun_credits])

lemma calculate_cgpa_setBacklog (s : Student) (roll : String) (sem : ℤ)
    (newB : ℤ) (db : List SemesterPerformance) :
    calculate_cgpa s (setBacklog roll sem newB db) = calculate_cgpa s db := by
  simp only [calculate_cgpa]
  rw [studentRecords_setBacklog]
  by_cases hrec : studentRecords s.roll_no db = []
  · rw [hrec]
    simp
  · have hrec' : (studentRecords s.roll_no db).map
        (setBacklogFun roll sem newB) ≠ [] := by
      simpa [List.map_eq_nil_iff] using hrec
    rw [if_neg hrec', if_neg hrec, usableRecords_map_setBacklog]
    by_cases hu : usableRecords s.is_lateral_entry
        (studentRecords s.roll_no db) = []
    · rw [hu]
      simp
    · have hu' : (usableRecords s.is_lateral_entry
          (studentRecords s.roll_no db)).map (setBacklogFun roll sem newB)
          ≠ [] := by
        simpa [List.map_eq_nil_iff] using hu
      have hw : (usableRecords s.is_lateral_entry
            (studentRecords s.roll_no db)).map
            ((fun r => r.sgpa * r.semester_credits)
              ∘ setBacklogFun roll sem newB)
          = (usableRecords s.is_lateral_entry
              (studentRecords s.roll_no db)).map
              (fun r => r.sgpa * r.semester_credits) :=
        List.map_congr_left
          (fun r _ => by
            simp [Function.comp, setBacklogFun_sgpa, setBacklogFun_credits])
      have hcr : (usableRecords s.is_lateral_entry
            (studentRecords s.roll_no db)).map
            ((fun r => r.semester_credits) ∘ setBacklogFun roll sem newB)
          = (usableRecords s.is_lateral_entry
              (studentRecords s.roll_no db)).map
              (fun r => r.semester_credits) :=
        List.map_congr_left
          (fun r _ => by simp [Function.comp, setBacklogFun_credits])
      rw [if_neg hu', if_neg hu, List.map_map, List.map_map, hw, hcr]

/-- C9: applying a manual backlog correction to an existing (student,
semester) record updates only that record's backlog_count, recomputes the
student's cached total_backlogs, and appends exactly one audit record with
the old and new values; every record's roll, semester, SGPA, credits and
provenance are unchanged, records of other (roll, semester) keys are kept
as they are, and the student's cgpa is unchanged (the cached cgpa being
consistent before the correction). -/
theorem c9_update_backlog_frame (s : Student) (db : List SemesterPerformance)
    (ledger : List BacklogUpdateRec) (sem newB : ℤ) (note : String)
    (perf : SemesterPerformance)
    (hfind : findPerf s.roll_no sem db = some perf)
    (hcache : s.cgpa = calculate_cgpa s db) :
    update_backlog s db ledger sem newB note
      = some ({ s with total_backlogs :=
                  calculate_backlog s (setBacklog s.roll_no sem newB db) },
              setBacklog s.roll_no sem newB db,
              ledger ++ [⟨s.roll_no, sem, perf.backlog_count, newB, sTrim note⟩])
    ∧ (setBacklog s.roll_no sem newB db).map
        (fun r => (r.roll_no, r.semester_no, r.sgpa, r.semester_credits,
          r.source_file))
        = db.map (fun r => (r.roll_no, r.semester_no, r.sgpa,
            r.semester_credits, r.source_file))
    ∧ ∀ r ∈ db, ¬(r.roll_no = s.roll_no ∧ r.semester_no = sem) →
        r ∈ setBacklog s.roll_no sem newB db := by
  refine ⟨?_, ?_, ?_⟩
  · have hc : calculate_cgpa s (setBacklog s.roll_no sem newB db) = s.cgpa := by
      rw [calculate_cgpa_setBacklog]
      exact hcache.symm
    unfold update_backlog
    rw [hfind]
    rw [show (setBacklog s.roll_no sem newB db)
        = setBacklog s.roll_no sem newB db from rfl]
    simp only [hc]
  · rw [setBacklog_eq_map, List.map_map]
    exact List.map_congr_left
      (fun r _ => by
        simp [Function.comp, setBacklogFun_roll_no, setBacklogFun_semester_no,
          setBacklogFun_sgpa, setBacklogFun_credits, setBacklogFun_source])
  · intro r hr hne
    rw [setBacklog_eq_map]
    refine List.mem_map.2 ⟨r, hr, ?_⟩
    unfold setBacklogFun
    rw [if_neg]
    intro hcond
    rw [Bool.and_eq_true, beq_iff_eq, beq_iff_eq] at hcond
    exact hne hcond

/-- Witness for C9 at a concrete student with one semester record (credits
0, so the cached cgpa 0 is consistent): correcting the backlog from 3 to 1
rewrites only that record's backlog_count and appends one audit entry. -/
theorem c9_update_backlog_frame_witness :
    update_backlog
        ⟨"R-60001", "N", "CSE", false, 1, 0, 3, .ELIGIBLE, none, none⟩
        [⟨"R-60001", 1, 8, 0, 3, "h.pdf"⟩] [] 1 1 " fixed "
      = some ({ (⟨"R-60001", "N", "CSE", false, 1, 0, 3, .ELIGIBLE, none,
                  none⟩ : Student) with
                total_backlogs := calculate_backlog
                  ⟨"R-60001", "N", "CSE", false, 1, 0, 3, .ELIGIBLE, none,
                    none⟩
                  (setBacklog "R-60001" 1 1 [⟨"R-60001", 1, 8, 0, 3, "h.pdf"⟩]) },
              setBacklog "R-60001" 1 1 [⟨"R-60001", 1, 8, 0, 3, "h.pdf"⟩],
              [] ++ [⟨"R-60001", 1, 3, 1, sTrim " fixed "⟩])
    ∧ (setBacklog "R-60001" 1 1 [⟨"R-60001", 1, 8, 0, 3, "h.pdf"⟩]).map
        (fun r => (r.roll_no, r.semester_no, r.sgpa, r.semester_credits,
          r.source_file))
        = ([⟨"R-60001", 1, 8, 0, 3, "h.pdf"⟩] :
              List SemesterPerformance).map
            (fun r => (r.roll_no, r.semester_no, r.sgpa, r.semester_credits,
              r.source_file))
    ∧ ∀ r ∈ ([⟨"R-60001", 1, 8, 0, 3, "h.pdf"⟩] :
          List SemesterPerformance),
        ¬(r.roll_no = "R-60001" ∧ r.semester_no = 1) →
        r ∈ setBacklog "R-60001" 1 1 [⟨"R-60001", 1, 8, 0, 3, "h.pdf"⟩] :=
  c9_update_backlog_frame
    ⟨"R-60001", "N", "CSE", false, 1, 0, 3, .ELIGIBLE, none, none⟩
    [⟨"R-60001", 1, 8, 0, 3, "h.pdf"⟩] [] 1 1 " fixed "
    ⟨"R-60001", 1, 8, 0, 3, "h.pdf"⟩ rfl (by decide)
